import Mathlib

/-!
Verification of the Twins Study visualization app (app.py and main.py).

The data model is a shallow embedding of a pandas DataFrame: an ordered
list of column names together with an ordered list of rows, each row an
ordered list of cell values aligned with the columns.  Cell values are
either integers (Timepoint, and the numeric measurements in the concrete
examples) or strings (Gene, Twin, Marker).
-/

/-- A cell value in a loaded CSV table. -/
inductive Value where
  | int (n : Int)
  | str (s : String)
deriving DecidableEq, Repr

/-- A loaded tabular record set: named columns and ordered rows. -/
structure DataFrame where
  cols : List String
  rows : List (List Value)
deriving DecidableEq, Repr

/-- Index of a column name in the column list (position of first match). -/
def colIdx : List String → String → Option Nat
  | [], _ => none
  | c :: cs, x => if c = x then some 0 else (colIdx cs x).map (· + 1)

/-- The cell of `row` in column `c`, given the table's column list. -/
def getCell (cols : List String) (row : List Value) (c : String) : Option Value :=
  (colIdx cols c).bind (fun i => row.get? i)

/-- The row predicate of `df[df['Timepoint'] <= days_in_space]`: the row's
Timepoint cell is an integer that is at most the bound. -/
def timepointLe (cols : List String) (bound : Int) (row : List Value) : Bool :=
  match getCell cols row "Timepoint" with
  | some (Value.int n) => n ≤ bound
  | _ => false

/-- `filter_by_days` from app.py: if the Timepoint column is absent the
input is returned unchanged, otherwise the rows with Timepoint ≤ bound. -/
def filter_by_days (days_in_space : Int) (df : DataFrame) : DataFrame :=
  if "Timepoint" ∈ df.cols then
    { df with rows := df.rows.filter (timepointLe df.cols days_in_space) }
  else df

/-- `filter_days` from main.py: absent input, or input lacking the
Timepoint column, gives the absent result; otherwise the rows with
Timepoint ≤ bound. -/
def filter_days (days_in_space : Int) (df : Option DataFrame) : Option DataFrame :=
  match df with
  | none => none
  | some d =>
    if "Timepoint" ∈ d.cols then
      some { d with rows := d.rows.filter (timepointLe d.cols days_in_space) }
    else none

/-- Narrowing `df[df[c] == v]` used for the Gene and Marker selections
(`df_gene`/`df_ox` in app.py, `df_g`/`df_o` in main.py). -/
def narrow (c : String) (v : Value) (df : DataFrame) : DataFrame :=
  { df with rows := df.rows.filter (fun r => getCell df.cols r c == some v) }

lemma filter_by_days_cols (b : Int) (df : DataFrame) :
    (filter_by_days b df).cols = df.cols := by
  unfold filter_by_days; split <;> rfl

lemma narrow_cols (c : String) (v : Value) (df : DataFrame) :
    (narrow c v df).cols = df.cols := rfl

lemma filter_by_days_rows (b : Int) (df : DataFrame)
    (h : "Timepoint" ∈ df.cols) :
    (filter_by_days b df).rows = df.rows.filter (timepointLe df.cols b) := by
  unfold filter_by_days
  rw [if_pos h]

lemma filter_days_eq (b : Int) (df : DataFrame) (h : "Timepoint" ∈ df.cols) :
    filter_days b (some df) = some (filter_by_days b df) := by
  simp [filter_days, filter_by_days, h]

/-- The file system visible to the loader: for each path, the parsed table
the CSV at that path would yield, or `none` when no file exists there. -/
structure FileSystem where
  files : String → Option DataFrame

/-- State of the sidebar upload widget: no file provided, or a parsed upload. -/
inductive UploadState where
  | absent
  | provided (df : DataFrame)
deriving DecidableEq, Repr

/-- `load_data` from app.py.  Besides its two Python arguments (path, label)
it reads the upload toggle and upload widget, and the file system; it returns
the loaded table (or `none`) together with the warnings it emitted. -/
def load_data (fs : FileSystem) (enable_upload : Bool) (uploaded : UploadState)
    (path : String) (_label : String) : Option DataFrame × List String :=
  if enable_upload then
    match uploaded with
    | UploadState.provided d => (some d, [])
    | UploadState.absent => (none, [])
  else
    match fs.files path with
    | some d => (some d, [])
    | none => (none, ["File not found: " ++ path])

/-- `load_csv` from main.py (same behaviour as `load_data` in app.py). -/
def load_csv (fs : FileSystem) (use_uploader : Bool) (uploaded : UploadState)
    (path : String) (_label : String) : Option DataFrame × List String :=
  if use_uploader then
    match uploaded with
    | UploadState.provided d => (some d, [])
    | UploadState.absent => (none, [])
  else
    match fs.files path with
    | some d => (some d, [])
    | none => (none, ["File not found: " ++ path])

/-- Lookup in the memoization table of `st.cache_data`, which keys entries
by the Python argument pair (path, label) only. -/
def lookupCache :
    List ((String × String) × Option DataFrame) → String × String →
    Option (Option DataFrame)
  | [], _ => none
  | (k, v) :: rest, key => if k = key then some v else lookupCache rest key

/-- The memoized loader: `st.cache_data` returns the stored result when the
argument pair (path, label) has been seen before, and otherwise recomputes
`load_data` under the current widget and file-system state.  The toggle
`enable_upload` and the upload widget are read by the loader but are not part
of the cache key. -/
def memoLoad (cache : List ((String × String) × Option DataFrame))
    (fs : FileSystem) (enable_upload : Bool) (uploaded : UploadState)
    (path label : String) : Option DataFrame :=
  match lookupCache cache (path, label) with
  | some v => v
  | none => (load_data fs enable_upload uploaded path label).1

/-- Outcome of one panel of the layout: a rendered chart over the narrowed
table, or the inline error shown when chart-required columns are missing. -/
inductive Panel where
  | chart (df : DataFrame)
  | missingColsError
deriving DecidableEq, Repr

/-- Outcome of one run of app.py after the two loads: the pre-check warning
with `st.stop`, an `assert` failure aborting the script (missing Gene or
Marker column), or the two panels. -/
inductive AppResult where
  | missingData
  | assertFailure (msg : String)
  | panels (gene ox : Panel)
deriving DecidableEq, Repr

/-- One run of app.py from the two load results to the rendered layout:
pre-check, `assert` on Gene and Marker, Timepoint filtering, narrowing by the
selected category, per-panel chart-column checks. -/
def app_run (gene_df ox_df : Option DataFrame) (days_in_space : Int)
    (selected_gene selected_marker : Value) : AppResult :=
  match gene_df, ox_df with
  | some g, some o =>
    if "Gene" ∈ g.cols then
      if "Marker" ∈ o.cols then
        let gene_f := filter_by_days days_in_space g
        let ox_f := filter_by_days days_in_space o
        let df_gene := narrow "Gene" selected_gene gene_f
        let p1 : Panel :=
          if "Timepoint" ∈ df_gene.cols ∧ "Twin" ∈ df_gene.cols ∧
              "Expression" ∈ df_gene.cols
          then Panel.chart df_gene else Panel.missingColsError
        let df_ox := narrow "Marker" selected_marker ox_f
        let p2 : Panel :=
          if "Timepoint" ∈ df_ox.cols ∧ "Value" ∈ df_ox.cols
          then Panel.chart df_ox else Panel.missingColsError
        AppResult.panels p1 p2
      else AppResult.assertFailure "Column Marker not found"
    else AppResult.assertFailure "Column Gene not found"
  | _, _ => AppResult.missingData

/-- Outcome of one run of main.py: pre-check stop, `st.error` plus `st.stop`
for a missing Gene or Marker column, a TypeError crash from subscripting the
`None` returned by `filter_days` (before the gene panel, or after it with the
gene panel already emitted), or the two panels. -/
inductive MainResult where
  | missingData
  | stopGene
  | stopMarker
  | crashGene
  | crashOx (gene : Panel)
  | panels (gene ox : Panel)
deriving DecidableEq, Repr

/-- One run of main.py from the two load results to the rendered layout:
pre-check, sidebar column checks with `st.stop`, Timepoint filtering (which
may yield `None`, later subscripted — a crash), narrowing, per-panel
chart-column checks. -/
def main_run (gene_df ox_df : Option DataFrame) (days_in_space : Int)
    (selected_gene selected_marker : Value) : MainResult :=
  match gene_df, ox_df with
  | some g, some o =>
    if "Gene" ∈ g.cols then
      if "Marker" ∈ o.cols then
        match filter_days days_in_space (some g) with
        | none => MainResult.crashGene
        | some gene_f =>
          let df_g := narrow "Gene" selected_gene gene_f
          let p1 : Panel :=
            if "Timepoint" ∈ df_g.cols ∧ "Twin" ∈ df_g.cols ∧
                "Expression" ∈ df_g.cols
            then Panel.chart df_g else Panel.missingColsError
          match filter_days days_in_space (some o) with
          | none => MainResult.crashOx p1
          | some go_f =>
            let df_o := narrow "Marker" selected_marker go_f
            let p2 : Panel :=
              if "Timepoint" ∈ df_o.cols ∧ "Value" ∈ df_o.cols
              then Panel.chart df_o else Panel.missingColsError
            MainResult.panels p1 p2
      else MainResult.stopMarker
    else MainResult.stopGene
  | _, _ => MainResult.missingData

/-- Whether a panel outcome is a rendered chart. -/
def Panel.isChart : Panel → Bool
  | Panel.chart _ => true
  | Panel.missingColsError => false

/-- Whether the gene panel was rendered in an app.py run. -/
def AppResult.geneShown : AppResult → Bool
  | AppResult.panels g _ => g.isChart
  | _ => false

/-- Whether the gene panel was rendered in a main.py run (it is also
rendered when the later oxidative-stress filtering crashes). -/
def MainResult.geneShown : MainResult → Bool
  | MainResult.panels g _ => g.isChart
  | MainResult.crashOx g => g.isChart
  | _ => false

example :
    filter_by_days 340
      { cols := ["Timepoint", "Twin", "Gene", "Expression"],
        rows := [[Value.int 0, Value.str "A", Value.str "X", Value.int 1],
                 [Value.int 400, Value.str "A", Value.str "X", Value.int 9]] } =
      { cols := ["Timepoint", "Twin", "Gene", "Expression"],
        rows := [[Value.int 0, Value.str "A", Value.str "X", Value.int 1]] } := by
  decide

lemma filter_idem {α : Type} (p : α → Bool) (l : List α) :
    (l.filter p).filter p = l.filter p := by
  induction l with
  | nil => rfl
  | cons a t ih =>
    cases h : p a <;> simp [List.filter_cons, h, ih]

lemma filter_swap {α : Type} (p q : α → Bool) (l : List α) :
    (l.filter p).filter q = (l.filter q).filter p := by
  induction l with
  | nil => rfl
  | cons a t ih =>
    cases hp : p a <;> cases hq : q a <;> simp [List.filter_cons, hp, hq, ih]

lemma timepointLe_mono {cols : List String} {r : List Value} {b b' : Int}
    (hb : b' ≤ b) (h : timepointLe cols b' r = true) :
    timepointLe cols b r = true := by
  cases hc : getCell cols r "Timepoint" with
  | none => simp [timepointLe, hc] at h
  | some v =>
    cases v with
    | int n =>
      simp [timepointLe, hc] at h ⊢
      exact le_trans h hb
    | str s => simp [timepointLe, hc] at h

/-- Gene-expression table of the spec's test scenario: all four required
columns and two rows, one inside and one beyond the 340-day bound. -/
def dfGeneEx : DataFrame :=
  { cols := ["Timepoint", "Twin", "Gene", "Expression"],
    rows := [[Value.int 0, Value.str "A", Value.str "X", Value.int 1],
             [Value.int 400, Value.str "A", Value.str "X", Value.int 9]] }

/-- Claim C1: for every record set with a Timepoint column holding integer
values and every integer bound, the filter returns exactly the subsequence
of rows with Timepoint at most the bound — the result is a sublist of the
input (order preserved, every result row occurs in the input), a row is kept
iff its Timepoint is ≤ the bound, and main.py's filter_days agrees with
app.py's filter_by_days on such inputs. -/
theorem C1_filter_exact (df : DataFrame) (b : Int)
    (hcol : "Timepoint" ∈ df.cols)
    (hint : ∀ r ∈ df.rows, ∃ n : Int,
      getCell df.cols r "Timepoint" = some (Value.int n)) :
    List.Sublist (filter_by_days b df).rows df.rows ∧
    (∀ r, r ∈ (filter_by_days b df).rows ↔
      r ∈ df.rows ∧ ∃ n : Int,
        getCell df.cols r "Timepoint" = some (Value.int n) ∧ n ≤ b) ∧
    filter_days b (some df) = some (filter_by_days b df) := by
  refine ⟨?_, ?_, filter_days_eq b df hcol⟩
  · rw [filter_by_days_rows b df hcol]
    exact List.filter_sublist df.rows
  · intro r
    rw [filter_by_days_rows b df hcol, List.mem_filter]
    constructor
    · rintro ⟨hr, hp⟩
      obtain ⟨n, hn⟩ := hint r hr
      simp [timepointLe, hn] at hp
      exact ⟨hr, n, hn, hp⟩
    · rintro ⟨hr, n, hn, hle⟩
      refine ⟨hr, ?_⟩
      simp [timepointLe, hn, hle]

/-- Instance of C1 on the spec's two-row scenario table at bound 340. -/
theorem C1_filter_exact_witness :
    List.Sublist (filter_by_days 340 dfGeneEx).rows dfGeneEx.rows ∧
    (∀ r, r ∈ (filter_by_days 340 dfGeneEx).rows ↔
      r ∈ dfGeneEx.rows ∧ ∃ n : Int,
        getCell dfGeneEx.cols r "Timepoint" = some (Value.int n) ∧ n ≤ 340) ∧
    filter_days 340 (some dfGeneEx) = some (filter_by_days 340 dfGeneEx) :=
  C1_filter_exact dfGeneEx 340 (by decide)
    (by
      intro r hr
      simp [dfGeneEx] at hr
      rcases hr with h | h <;> subst h
      · exact ⟨0, by decide⟩
      · exact ⟨400, by decide⟩)

/-- Table without a Timepoint column, on which the two filters disagree. -/
def dfNoTimepoint : DataFrame :=
  { cols := ["Marker", "Value"], rows := [[Value.str "GSH", Value.int 5]] }

/-- Claim C3: the two filter implementations disagree exactly on inputs
without a Timepoint column — there app.py's filter_by_days returns the
input unchanged while main.py's filter_days returns the absent result — and
agree on every input with a Timepoint column. -/
theorem C3_filter_divergence (df : DataFrame) (b : Int) :
    ("Timepoint" ∉ df.cols →
      filter_by_days b df = df ∧ filter_days b (some df) = none) ∧
    ("Timepoint" ∈ df.cols →
      filter_days b (some df) = some (filter_by_days b df)) := by
  constructor
  · intro h
    constructor
    · simp [filter_by_days, h]
    · simp [filter_days, h]
  · intro h
    exact filter_days_eq b df h

/-- Instance of C3 on a Timepoint-free table and on the scenario table. -/
theorem C3_filter_divergence_witness :
    (filter_by_days 100 dfNoTimepoint = dfNoTimepoint ∧
      filter_days 100 (some dfNoTimepoint) = none) ∧
    filter_days 7 (some dfGeneEx) = some (filter_by_days 7 dfGeneEx) :=
  ⟨(C3_filter_divergence dfNoTimepoint 100).1 (by decide),
   (C3_filter_divergence dfGeneEx 7).2 (by decide)⟩

/-- Claim C4: for every path with no file and upload mode off, both loaders
return the absent result and record the user-visible warning. -/
theorem C4_loader_missing_file (fs : FileSystem) (uploaded : UploadState)
    (path label : String) (h : fs.files path = none) :
    load_data fs false uploaded path label =
      (none, ["File not found: " ++ path]) ∧
    load_csv fs false uploaded path label =
      (none, ["File not found: " ++ path]) := by
  constructor
  · simp [load_data, h]
  · simp [load_csv, h]

/-- File system with no files at all. -/
def fsEmpty : FileSystem := ⟨fun _ => none⟩

/-- Instance of C4 on the empty file system and the gene file path. -/
theorem C4_loader_missing_file_witness :
    load_data fsEmpty false UploadState.absent
        "data/gene_expression.csv" "Gene Expression" =
      (none, ["File not found: " ++ "data/gene_expression.csv"]) ∧
    load_csv fsEmpty false UploadState.absent
        "data/gene_expression.csv" "Gene Expression" =
      (none, ["File not found: " ++ "data/gene_expression.csv"]) :=
  C4_loader_missing_file fsEmpty UploadState.absent
    "data/gene_expression.csv" "Gene Expression" rfl

/-- Claim C5: filtering is monotone in the bound: for bounds b' < b every
row kept by the filter at b' is also kept by the filter at b, and on these
inputs filter_days agrees with filter_by_days at both bounds. -/
theorem C5_filter_monotone (df : DataFrame) (b b' : Int)
    (hcol : "Timepoint" ∈ df.cols) (hlt : b' < b) :
    (∀ r ∈ (filter_by_days b' df).rows, r ∈ (filter_by_days b df).rows) ∧
    filter_days b' (some df) = some (filter_by_days b' df) ∧
    filter_days b (some df) = some (filter_by_days b df) := by
  refine ⟨?_, filter_days_eq b' df hcol, filter_days_eq b df hcol⟩
  intro r hr
  rw [filter_by_days_rows b' df hcol, List.mem_filter] at hr
  rw [filter_by_days_rows b df hcol, List.mem_filter]
  exact ⟨hr.1, timepointLe_mono (le_of_lt hlt) hr.2⟩

/-- Instance of C5 on the scenario table at bounds 100 < 340. -/
theorem C5_filter_monotone_witness :
    (∀ r ∈ (filter_by_days 100 dfGeneEx).rows,
      r ∈ (filter_by_days 340 dfGeneEx).rows) ∧
    filter_days 100 (some dfGeneEx) = some (filter_by_days 100 dfGeneEx) ∧
    filter_days 340 (some dfGeneEx) = some (filter_by_days 340 dfGeneEx) :=
  C5_filter_monotone dfGeneEx 340 100 (by decide) (by decide)

/-- Claim C6: filtering is idempotent: filtering an already-filtered set by
the same bound returns the identical set, for both implementations. -/
theorem C6_filter_idempotent (df : DataFrame) (b : Int)
    (hcol : "Timepoint" ∈ df.cols) :
    filter_by_days b (filter_by_days b df) = filter_by_days b df ∧
    filter_days b (filter_days b (some df)) = filter_days b (some df) := by
  have h1 : filter_by_days b (filter_by_days b df) = filter_by_days b df := by
    simp [filter_by_days, hcol, filter_idem]
  refine ⟨h1, ?_⟩
  have hc2 : "Timepoint" ∈ (filter_by_days b df).cols := by
    rw [filter_by_days_cols]; exact hcol
  rw [filter_days_eq b df hcol, filter_days_eq b _ hc2, h1]

/-- Instance of C6 on the scenario table at bound 340. -/
theorem C6_filter_idempotent_witness :
    filter_by_days 340 (filter_by_days 340 dfGeneEx) =
      filter_by_days 340 dfGeneEx ∧
    filter_days 340 (filter_days 340 (some dfGeneEx)) =
      filter_days 340 (some dfGeneEx) :=
  C6_filter_idempotent dfGeneEx 340 (by decide)

/-- Claim C9: filtering preserves the schema: the filtered result has
exactly the same columns, in the same order, as the input, for both
implementations. -/
theorem C9_filter_preserves_schema (df : DataFrame) (b : Int)
    (hcol : "Timepoint" ∈ df.cols) :
    (filter_by_days b df).cols = df.cols ∧
    (∀ d, filter_days b (some df) = some d → d.cols = df.cols) := by
  refine ⟨filter_by_days_cols b df, ?_⟩
  intro d hd
  rw [filter_days_eq b df hcol] at hd
  cases hd
  exact filter_by_days_cols b df

/-- Instance of C9 on the scenario table at bound 123. -/
theorem C9_filter_preserves_schema_witness :
    (filter_by_days 123 dfGeneEx).cols = dfGeneEx.cols ∧
    (∀ d, filter_days 123 (some dfGeneEx) = some d → d.cols = dfGeneEx.cols) :=
  C9_filter_preserves_schema dfGeneEx 123 (by decide)

/-- Claim C7: narrowing by a category value returns exactly the rows whose
category cell equals that value, and narrowing by a value occurring in no
row yields the empty record set rather than an error. -/
theorem C7_narrow_exact (df : DataFrame) (c : String) (v : Value)
    (_hc : c ∈ df.cols) :
    (∀ r, r ∈ (narrow c v df).rows ↔
      r ∈ df.rows ∧ getCell df.cols r c = some v) ∧
    ((∀ r ∈ df.rows, getCell df.cols r c ≠ some v) →
      (narrow c v df).rows = []) := by
  constructor
  · intro r
    simp [narrow, List.mem_filter]
  · intro h
    simp only [narrow]
    rw [List.filter_eq_nil_iff]
    intro a ha
    simp [h a ha]

/-- Instance of C7 on the scenario table: narrowing to the present gene X
and to the absent gene Z. -/
theorem C7_narrow_exact_witness :
    (∀ r, r ∈ (narrow "Gene" (Value.str "X") dfGeneEx).rows ↔
      r ∈ dfGeneEx.rows ∧
        getCell dfGeneEx.cols r "Gene" = some (Value.str "X")) ∧
    (narrow "Gene" (Value.str "Z") dfGeneEx).rows = [] :=
  ⟨(C7_narrow_exact dfGeneEx "Gene" (Value.str "X") (by decide)).1,
   (C7_narrow_exact dfGeneEx "Gene" (Value.str "Z") (by decide)).2 (by decide)⟩

/-- Claim C10: Timepoint filtering and category narrowing commute, for both
filter implementations. -/
theorem C10_filter_narrow_commute (df : DataFrame) (b : Int) (c : String)
    (v : Value) (htp : "Timepoint" ∈ df.cols) (_hc : c ∈ df.cols) :
    narrow c v (filter_by_days b df) = filter_by_days b (narrow c v df) ∧
    filter_days b (some (narrow c v df)) =
      some (narrow c v (filter_by_days b df)) := by
  have h1 : narrow c v (filter_by_days b df) =
      filter_by_days b (narrow c v df) := by
    simp only [narrow, filter_by_days, htp, if_true]
    simp [htp]
    exact List.filter_congr fun a _ => Bool.and_comm _ _
  have hc2 : "Timepoint" ∈ (narrow c v df).cols := htp
  refine ⟨h1, ?_⟩
  rw [filter_days_eq b _ hc2, ← h1]

/-- Instance of C10 on the scenario table at bound 340 and gene X. -/
theorem C10_filter_narrow_commute_witness :
    narrow "Gene" (Value.str "X") (filter_by_days 340 dfGeneEx) =
      filter_by_days 340 (narrow "Gene" (Value.str "X") dfGeneEx) ∧
    filter_days 340 (some (narrow "Gene" (Value.str "X") dfGeneEx)) =
      some (narrow "Gene" (Value.str "X") (filter_by_days 340 dfGeneEx)) :=
  C10_filter_narrow_commute dfGeneEx 340 "Gene" (Value.str "X")
    (by decide) (by decide)

/-- Oxidative-stress table missing the Marker column. -/
def dfOxNoMarker : DataFrame :=
  { cols := ["Timepoint", "Value"],
    rows := [[Value.int 0, Value.int 10], [Value.int 200, Value.int 12]] }

/-- Oxidative-stress table with Marker and Timepoint but no Value column. -/
def dfOxNoValue : DataFrame :=
  { cols := ["Timepoint", "Marker"],
    rows := [[Value.int 0, Value.str "GSH"]] }

/-- Claim C2 fails on the code: with a fully valid gene table and an
oxidative-stress table lacking the Marker column, app.py aborts on its
assert and main.py stops after the sidebar error, so the gene panel does
not render even though its own data is valid. -/
theorem C2_counterexample :
    ("Timepoint" ∈ dfGeneEx.cols ∧ "Twin" ∈ dfGeneEx.cols ∧
      "Gene" ∈ dfGeneEx.cols ∧ "Expression" ∈ dfGeneEx.cols) ∧
    app_run (some dfGeneEx) (some dfOxNoMarker) 340
        (Value.str "X") (Value.str "GSH") =
      AppResult.assertFailure "Column Marker not found" ∧
    main_run (some dfGeneEx) (some dfOxNoMarker) 340
        (Value.str "X") (Value.str "GSH") = MainResult.stopMarker ∧
    AppResult.geneShown (app_run (some dfGeneEx) (some dfOxNoMarker) 340
        (Value.str "X") (Value.str "GSH")) = false ∧
    MainResult.geneShown (main_run (some dfGeneEx) (some dfOxNoMarker) 340
        (Value.str "X") (Value.str "GSH")) = false := by
  decide

/-- Claim C2 amended: a missing category (Marker) column is fatal to the
whole run — app.py fails its assert and main.py reports the error and
stops, so neither panel renders.  Per-panel error confinement holds only at
the later chart-column check: when both category columns are present but
the oxidative-stress table lacks the Value column its chart needs, only
that panel is replaced by an error and the gene panel still renders. -/
theorem C2_missing_column_handling (g o : DataFrame) (b : Int) (sg sm : Value)
    (hG : "Gene" ∈ g.cols) :
    ("Marker" ∉ o.cols →
      app_run (some g) (some o) b sg sm =
        AppResult.assertFailure "Column Marker not found" ∧
      main_run (some g) (some o) b sg sm = MainResult.stopMarker) ∧
    ("Marker" ∈ o.cols → "Timepoint" ∈ g.cols → "Twin" ∈ g.cols →
      "Expression" ∈ g.cols → "Timepoint" ∈ o.cols → "Value" ∉ o.cols →
      app_run (some g) (some o) b sg sm =
        AppResult.panels
          (Panel.chart (narrow "Gene" sg (filter_by_days b g)))
          Panel.missingColsError ∧
      main_run (some g) (some o) b sg sm =
        MainResult.panels
          (Panel.chart (narrow "Gene" sg (filter_by_days b g)))
          Panel.missingColsError) := by
  constructor
  · intro hM
    constructor
    · simp [app_run, hG, hM]
    · simp [main_run, hG, hM]
  · intro hM hTg hTw hE hTo hV
    constructor
    · simp [app_run, hG, hM, narrow_cols, filter_by_days_cols, hTg, hTw, hE,
        hTo, hV]
    · simp [main_run, hG, hM, filter_days_eq b g hTg, filter_days_eq b o hTo,
        narrow_cols, filter_by_days_cols, hTg, hTw, hE, hTo, hV]

/-- Instance of the amended C2: the fatal missing-Marker case and the
per-panel missing-Value case on concrete tables. -/
theorem C2_missing_column_handling_witness :
    (app_run (some dfGeneEx) (some dfOxNoMarker) 340
        (Value.str "X") (Value.str "GSH") =
      AppResult.assertFailure "Column Marker not found" ∧
     main_run (some dfGeneEx) (some dfOxNoMarker) 340
        (Value.str "X") (Value.str "GSH") = MainResult.stopMarker) ∧
    (app_run (some dfGeneEx) (some dfOxNoValue) 340
        (Value.str "X") (Value.str "GSH") =
      AppResult.panels
        (Panel.chart (narrow "Gene" (Value.str "X")
          (filter_by_days 340 dfGeneEx)))
        Panel.missingColsError ∧
     main_run (some dfGeneEx) (some dfOxNoValue) 340
        (Value.str "X") (Value.str "GSH") =
      MainResult.panels
        (Panel.chart (narrow "Gene" (Value.str "X")
          (filter_by_days 340 dfGeneEx)))
        Panel.missingColsError) :=
  ⟨(C2_missing_column_handling dfGeneEx dfOxNoMarker 340
      (Value.str "X") (Value.str "GSH") (by decide)).1 (by decide),
   (C2_missing_column_handling dfGeneEx dfOxNoValue 340
      (Value.str "X") (Value.str "GSH") (by decide)).2
     (by decide) (by decide) (by decide) (by decide) (by decide) (by decide)⟩

lemma lookupCache_mem (cache : List ((String × String) × Option DataFrame))
    (key : String × String) (v : Option DataFrame)
    (h : lookupCache cache key = some v) : (key, v) ∈ cache := by
  induction cache with
  | nil => cases h
  | cons e rest ih =>
    obtain ⟨k, w⟩ := e
    by_cases hk : k = key
    · subst hk
      simp [lookupCache] at h
      subst h
      exact List.mem_cons_self _ _
    · simp [lookupCache, hk] at h
      exact List.mem_cons_of_mem _ (ih h)

/-- File system where the scenario gene table is present at its path. -/
def fsGene : FileSystem :=
  ⟨fun p => if p = "data/gene_expression.csv" then some dfGeneEx else none⟩

/-- Cache state left by a run with the upload toggle off: the gene-file
entry holds the result load_data computed under that state. -/
def cacheAfterFirstRun : List ((String × String) × Option DataFrame) :=
  [(("data/gene_expression.csv", "Gene Expression"),
    (load_data fsGene false UploadState.absent
      "data/gene_expression.csv" "Gene Expression").1)]

/-- Claim C8 fails on the code: the cache key (path, label) omits the
upload toggle that load_data reads.  After the toggle flips to upload mode
with no file uploaded, the memoized loader still returns the table cached
under the old state while recomputing returns none, so the memoization is
correctness-relevant. -/
theorem C8_counterexample :
    memoLoad cacheAfterFirstRun fsGene true UploadState.absent
        "data/gene_expression.csv" "Gene Expression" = some dfGeneEx ∧
    (load_data fsGene true UploadState.absent
        "data/gene_expression.csv" "Gene Expression").1 = none ∧
    memoLoad cacheAfterFirstRun fsGene true UploadState.absent
        "data/gene_expression.csv" "Gene Expression" ≠
      (load_data fsGene true UploadState.absent
        "data/gene_expression.csv" "Gene Expression").1 := by
  refine ⟨rfl, rfl, ?_⟩
  decide

/-- Claim C8 amended: the memoized loader agrees with recomputation only
when every cached entry equals what load_data returns under the current
file-system and widget state; in particular, when the upload toggle has not
changed since each entry was cached the memoization is invisible. -/
theorem C8_memoization_consistent
    (cache : List ((String × String) × Option DataFrame)) (fs : FileSystem)
    (eu : Bool) (upl : UploadState) (path label : String)
    (hc : ∀ k v, (k, v) ∈ cache → v = (load_data fs eu upl k.1 k.2).1) :
    memoLoad cache fs eu upl path label =
      (load_data fs eu upl path label).1 := by
  cases hl : lookupCache cache (path, label) with
  | none => simp [memoLoad, hl]
  | some v =>
    have hv := hc (path, label) v (lookupCache_mem cache (path, label) v hl)
    simp [memoLoad, hl]
    exact hv

/-- Instance of the amended C8: with the cache produced under the current
(toggle off) state, the memoized loader equals recomputation on both the
cached gene path and an uncached path. -/
theorem C8_memoization_consistent_witness :
    memoLoad cacheAfterFirstRun fsGene false UploadState.absent
        "data/gene_expression.csv" "Gene Expression" =
      (load_data fsGene false UploadState.absent
        "data/gene_expression.csv" "Gene Expression").1 ∧
    memoLoad cacheAfterFirstRun fsGene false UploadState.absent
        "data/oxidative_stress.csv" "Oxidative Stress" =
      (load_data fsGene false UploadState.absent
        "data/oxidative_stress.csv" "Oxidative Stress").1 := by
  have hc : ∀ k v, (k, v) ∈ cacheAfterFirstRun →
      v = (load_data fsGene false UploadState.absent k.1 k.2).1 := by
    intro k v h
    simp [cacheAfterFirstRun] at h
    obtain ⟨h1, h2⟩ := h
    subst h1
    subst h2
    rfl
  exact ⟨C8_memoization_consistent cacheAfterFirstRun fsGene false
      UploadState.absent "data/gene_expression.csv" "Gene Expression" hc,
    C8_memoization_consistent cacheAfterFirstRun fsGene false
      UploadState.absent "data/oxidative_stress.csv" "Oxidative Stress" hc⟩
